import Mathlib

/-!
Verification of the plate & socket generator's geometry/validation engine.

The engine is embedded shallowly over `ℚ` (exact rational arithmetic stands
in for JavaScript's IEEE doubles; every boundary the theorems touch is exact
in both).  The only non-rational operation in the source is
`Math.sqrt(h*h + v*v) < 4` inside `validateSocketPosition`; the embedding
uses the equivalent squared comparison `h*h + v*v < 16`, and the lemma
`sqrt_groupDistanceSq_lt_four_iff` below proves the two forms equivalent
over `ℝ`.
-/

/-- Direction of a socket group (`"horizontal" | "vertical"` in the source). -/
inductive Direction where
  | horizontal
  | vertical
deriving DecidableEq, Repr

/-- `Plate` interface: dimensions in centimeters. -/
structure Plate where
  id : String
  width : ℚ
  height : ℚ
deriving DecidableEq, Repr

/-- `SocketGroup` interface: anchored at the bottom-left center of the first
socket; `positionX`/`positionY` are anchor coordinates in cm measured from
the plate's left and bottom edges. -/
structure SocketGroup where
  id : String
  plateId : String
  count : ℕ
  direction : Direction
  positionX : ℚ
  positionY : ℚ
deriving DecidableEq, Repr

/-- Width/height pair returned by `calculateSocketGroupDimensions`. -/
structure Dims where
  width : ℚ
  height : ℚ
deriving DecidableEq, Repr

/-- Structured stand-in for the German error strings of the source.  Each
constructor carries the numeric payload the corresponding message interpolates
(the minimum/maximum allowed anchor coordinate, or, for the inter-group
check, the squared rectangle distance that violated the clearance). -/
inductive ValidationError where
  | leftEdge (minAllowedPositionX : ℚ)
  | bottomEdge (minAllowedPositionY : ℚ)
  | rightEdge (maxAllowedPositionX : ℚ)
  | topEdge (maxAllowedPositionY : ℚ)
  | groupDistance (distanceSq : ℚ)
deriving DecidableEq, Repr

/-- `ValidatedPosition` result record of `validateSocketPosition`. -/
structure ValidatedPosition where
  valid : Bool
  error : Option ValidationError
  positionX : ℚ
  positionY : ℚ
deriving DecidableEq, Repr

def SOCKET_SIZE : ℚ := 7

def SOCKET_GAP : ℚ := 1/5

def MIN_EDGE_DISTANCE : ℚ := 3

def MIN_GROUP_DISTANCE : ℚ := 4

def MIN_PLATE_SIZE_FOR_SOCKETS : ℚ := 40

/-- Anchor point offset: 3.5 cm from both left and bottom edges of the
7×7 cm first socket (`ANCHOR_OFFSET_CM` in the source). -/
def ANCHOR_OFFSET_CM : ℚ := 7/2

/-- `calculateSocketGroupDimensions` from the type/validation module:
`totalDimension = count * SOCKET_SIZE + (count − 1) * SOCKET_GAP`, laid along
the group's direction; the other dimension is one socket edge. -/
def calculateSocketGroupDimensions (count : ℕ) (direction : Direction) : Dims :=
  let totalSocketSpace := (count : ℚ) * SOCKET_SIZE
  let gaps := ((count : ℚ) - 1) * SOCKET_GAP
  let totalDimension := totalSocketSpace + gaps
  match direction with
  | .horizontal => { width := totalDimension, height := SOCKET_SIZE }
  | .vertical => { width := SOCKET_SIZE, height := totalDimension }

/-- `isPlateLargeEnoughForSockets`: both dimensions at least 40 cm. -/
def isPlateLargeEnoughForSockets (plate : Plate) : Bool :=
  MIN_PLATE_SIZE_FOR_SOCKETS ≤ plate.width ∧ MIN_PLATE_SIZE_FOR_SOCKETS ≤ plate.height

/-- Axis-aligned rectangle in the bottom-left coordinate system used by the
validator (`left/right/bottom/top`, y grows upward). -/
structure Rect where
  left : ℚ
  right : ℚ
  bottom : ℚ
  top : ℚ
deriving DecidableEq, Repr

/-- Anchor → bounding-box translation performed by `validateSocketPosition`:
`groupLeftX = positionX − 3.5`, `groupBottomY = positionY − 3.5`, right/top
edges obtained by adding the group dimensions. -/
def socketGroupBox (sg : SocketGroup) (positionX positionY : ℚ) : Rect :=
  let dims := calculateSocketGroupDimensions sg.count sg.direction
  let groupLeftX := positionX - ANCHOR_OFFSET_CM
  let groupBottomY := positionY - ANCHOR_OFFSET_CM
  { left := groupLeftX
    right := groupLeftX + dims.width
    bottom := groupBottomY
    top := groupBottomY + dims.height }

/-- Horizontal gap between two x-ranges (`hDistance` in the source):
zero when the projections overlap or touch. -/
def rectHDistance (r1Left r1Right r2Left r2Right : ℚ) : ℚ :=
  if r1Right < r2Left then r2Left - r1Right
  else if r2Right < r1Left then r1Left - r2Right
  else 0

/-- Vertical gap between two y-ranges (`vDistance` in the source), in the
bottom-up coordinate system. -/
def rectVDistance (r1Bottom r1Top r2Bottom r2Top : ℚ) : ℚ :=
  if r1Bottom > r2Top then r1Bottom - r2Top
  else if r2Bottom > r1Top then r2Bottom - r1Top
  else 0

/-- Squared Euclidean rectangle distance between the candidate box of `sg`
at `(positionX, positionY)` and the stored box of `other`
(`hDistance² + vDistance²`; the source compares `Math.sqrt` of this
against 4, the embedding compares this against 16 — see
`sqrt_groupDistanceSq_lt_four_iff`). -/
def groupDistanceSq (sg : SocketGroup) (positionX positionY : ℚ)
    (other : SocketGroup) : ℚ :=
  let r1 := socketGroupBox sg positionX positionY
  let r2 := socketGroupBox other other.positionX other.positionY
  let hDistance := rectHDistance r1.left r1.right r2.left r2.right
  let vDistance := rectVDistance r1.bottom r1.top r2.bottom r2.top
  hDistance * hDistance + vDistance * vDistance

/-- The `for (const other of allSocketGroups)` loop of
`validateSocketPosition`: skip self (by id) and groups on other plates,
fail on the first sibling whose rectangle distance is below 4 cm. -/
def checkGroupDistances (sg : SocketGroup) (positionX positionY : ℚ) :
    List SocketGroup → Option ValidationError
  | [] => none
  | other :: rest =>
    if other.id = sg.id ∨ other.plateId ≠ sg.plateId then
      checkGroupDistances sg positionX positionY rest
    else if groupDistanceSq sg positionX positionY other <
        MIN_GROUP_DISTANCE * MIN_GROUP_DISTANCE then
      some (.groupDistance (groupDistanceSq sg positionX positionY other))
    else
      checkGroupDistances sg positionX positionY rest

/-- `validateSocketPosition`: translate the anchor to a bounding box, run
the four edge-clearance checks in order (left, bottom, right, top), then the
inter-group clearance loop; first failing check wins, the input coordinates
are echoed back in every result. -/
def validateSocketPosition (sg : SocketGroup) (positionX positionY : ℚ)
    (plate : Plate) (allSocketGroups : List SocketGroup) : ValidatedPosition :=
  let dims := calculateSocketGroupDimensions sg.count sg.direction
  let box := socketGroupBox sg positionX positionY
  if box.left < MIN_EDGE_DISTANCE then
    { valid := false
      error := some (.leftEdge (MIN_EDGE_DISTANCE + ANCHOR_OFFSET_CM))
      positionX := positionX, positionY := positionY }
  else if box.bottom < MIN_EDGE_DISTANCE then
    { valid := false
      error := some (.bottomEdge (MIN_EDGE_DISTANCE + ANCHOR_OFFSET_CM))
      positionX := positionX, positionY := positionY }
  else if box.right > plate.width - MIN_EDGE_DISTANCE then
    { valid := false
      error := some (.rightEdge
        (plate.width - MIN_EDGE_DISTANCE - dims.width + ANCHOR_OFFSET_CM))
      positionX := positionX, positionY := positionY }
  else if box.top > plate.height - MIN_EDGE_DISTANCE then
    { valid := false
      error := some (.topEdge
        (plate.height - MIN_EDGE_DISTANCE - dims.height + ANCHOR_OFFSET_CM))
      positionX := positionX, positionY := positionY }
  else
    match checkGroupDistances sg positionX positionY allSocketGroups with
    | some e =>
      { valid := false, error := some e
        positionX := positionX, positionY := positionY }
    | none =>
      { valid := true, error := none
        positionX := positionX, positionY := positionY }

/-- The squared rectangle distance is a sum of two squares, hence nonnegative. -/
lemma groupDistanceSq_nonneg (sg : SocketGroup) (x y : ℚ) (o : SocketGroup) :
    0 ≤ groupDistanceSq sg x y o := by
  simp only [groupDistanceSq]
  exact add_nonneg (mul_self_nonneg _) (mul_self_nonneg _)

/-- Justification of the squared embedding of the clearance test: the source's
`Math.sqrt(h*h + v*v) < 4` is equivalent to the embedding's
`h*h + v*v < MIN_GROUP_DISTANCE * MIN_GROUP_DISTANCE`. -/
lemma sqrt_groupDistanceSq_lt_four_iff (sg : SocketGroup) (x y : ℚ) (o : SocketGroup) :
    Real.sqrt ((groupDistanceSq sg x y o : ℝ)) < 4 ↔
      groupDistanceSq sg x y o < MIN_GROUP_DISTANCE * MIN_GROUP_DISTANCE := by
  rw [show ((4:ℝ)) = Real.sqrt 16 by
      rw [show (16:ℝ) = 4 ^ 2 by norm_num, Real.sqrt_sq (by norm_num)]]
  rw [Real.sqrt_lt_sqrt_iff (by exact_mod_cast groupDistanceSq_nonneg sg x y o)]
  rw [show (16:ℝ) = ((MIN_GROUP_DISTANCE * MIN_GROUP_DISTANCE : ℚ) : ℝ) by
      norm_num [MIN_GROUP_DISTANCE]]
  exact_mod_cast Iff.rfl

/-- A squared distance at least `4²` means a Euclidean distance at least 4. -/
lemma four_le_sqrt_groupDistanceSq (sg : SocketGroup) (x y : ℚ) (o : SocketGroup)
    (h : MIN_GROUP_DISTANCE * MIN_GROUP_DISTANCE ≤ groupDistanceSq sg x y o) :
    (4:ℝ) ≤ Real.sqrt ((groupDistanceSq sg x y o : ℝ)) := by
  rcases lt_or_le (Real.sqrt ((groupDistanceSq sg x y o : ℝ))) 4 with hlt | hle
  · exact absurd ((sqrt_groupDistanceSq_lt_four_iff sg x y o).mp hlt) (not_lt.mpr h)
  · exact hle

/-- The clearance loop returns `none` exactly when every sibling on the same
plate (other than the group itself) is at squared distance at least `4²`. -/
lemma checkGroupDistances_eq_none_iff (sg : SocketGroup) (x y : ℚ)
    (l : List SocketGroup) :
    checkGroupDistances sg x y l = none ↔
      ∀ o ∈ l, o.id ≠ sg.id → o.plateId = sg.plateId →
        ¬ (groupDistanceSq sg x y o < MIN_GROUP_DISTANCE * MIN_GROUP_DISTANCE) := by
  induction l with
  | nil => simp [checkGroupDistances]
  | cons o rest ih =>
    by_cases h1 : o.id = sg.id ∨ o.plateId ≠ sg.plateId
    · rw [checkGroupDistances, if_pos h1, ih]
      constructor
      · intro h o' ho' hid hpl
        rcases List.mem_cons.mp ho' with rfl | ho'
        · rcases h1 with h1 | h1
          · exact absurd h1 hid
          · exact absurd hpl h1
        · exact h o' ho' hid hpl
      · intro h o' ho' hid hpl
        exact h o' (List.mem_cons_of_mem _ ho') hid hpl
    · push_neg at h1
      rw [checkGroupDistances, if_neg (by push_neg; exact h1)]
      by_cases h2 : groupDistanceSq sg x y o < MIN_GROUP_DISTANCE * MIN_GROUP_DISTANCE
      · rw [if_pos h2]
        constructor
        · intro h
          exact absurd h (by simp)
        · intro h
          exact absurd h2 (h o (List.mem_cons_self o rest) h1.1 h1.2)
      · rw [if_neg h2, ih]
        constructor
        · intro h o' ho' hid hpl
          rcases List.mem_cons.mp ho' with rfl | ho'
          · exact h2
          · exact h o' ho' hid hpl
        · intro h o' ho' hid hpl
          exact h o' (List.mem_cons_of_mem _ ho') hid hpl

/-- Whatever error the clearance loop returns is an inter-group-clearance
error carrying a squared distance below `4²`. -/
lemma checkGroupDistances_some_shape (sg : SocketGroup) (x y : ℚ)
    (l : List SocketGroup) (e : ValidationError)
    (h : checkGroupDistances sg x y l = some e) :
    ∃ q, e = .groupDistance q ∧ q < MIN_GROUP_DISTANCE * MIN_GROUP_DISTANCE := by
  induction l with
  | nil => simp [checkGroupDistances] at h
  | cons o rest ih =>
    rw [checkGroupDistances] at h
    split_ifs at h with h1 h2
    · exact ih h
    · exact ⟨groupDistanceSq sg x y o, (Option.some_inj.mp h).symm, h2⟩
    · exact ih h

/-- The clearance loop only ever looks at siblings with the validated group's
`plateId`: filtering the list to that plate first does not change its result. -/
lemma checkGroupDistances_filter_same_plate (sg : SocketGroup) (x y : ℚ)
    (l : List SocketGroup) :
    checkGroupDistances sg x y (l.filter fun g => g.plateId == sg.plateId) =
      checkGroupDistances sg x y l := by
  induction l with
  | nil => rfl
  | cons o rest ih =>
    by_cases hp : o.plateId = sg.plateId
    · rw [List.filter_cons_of_pos (by simpa using hp)]
      rw [checkGroupDistances, checkGroupDistances]
      split_ifs with h1 h2
      · exact ih
      · rfl
      · exact ih
    · rw [List.filter_cons_of_neg (by simpa using hp)]
      rw [checkGroupDistances, if_pos (Or.inr hp)]
      exact ih

/-- When the four edge checks pass, `validateSocketPosition` reduces to the
outcome of the inter-group clearance loop. -/
lemma validateSocketPosition_of_edges_ok (sg : SocketGroup) (x y : ℚ)
    (plate : Plate) (others : List SocketGroup)
    (h1 : ¬ ((socketGroupBox sg x y).left < MIN_EDGE_DISTANCE))
    (h2 : ¬ ((socketGroupBox sg x y).bottom < MIN_EDGE_DISTANCE))
    (h3 : ¬ ((socketGroupBox sg x y).right > plate.width - MIN_EDGE_DISTANCE))
    (h4 : ¬ ((socketGroupBox sg x y).top > plate.height - MIN_EDGE_DISTANCE)) :
    validateSocketPosition sg x y plate others =
      match checkGroupDistances sg x y others with
      | some e =>
        { valid := false, error := some e, positionX := x, positionY := y }
      | none =>
        { valid := true, error := none, positionX := x, positionY := y } := by
  simp only [validateSocketPosition]
  rw [if_neg h1, if_neg h2, if_neg h3, if_neg h4]

/-- Every result of `validateSocketPosition` echoes the candidate coordinates. -/
lemma validateSocketPosition_echo (sg : SocketGroup) (x y : ℚ) (plate : Plate)
    (others : List SocketGroup) :
    (validateSocketPosition sg x y plate others).positionX = x ∧
      (validateSocketPosition sg x y plate others).positionY = y := by
  simp only [validateSocketPosition]
  split_ifs <;> first
    | exact ⟨rfl, rfl⟩
    | (cases checkGroupDistances sg x y others <;> exact ⟨rfl, rfl⟩)

/-- Claim C6: for every count in [1,5] and every direction,
`calculateSocketGroupDimensions` returns `count*7 + (count−1)*0.2` as the
gapped dimension and exactly 7 as the other: horizontal gives
`{width: totalSpan, height: 7}`, vertical gives `{width: 7, height: totalSpan}`. -/
theorem socket_group_dimensions_spec (count : ℕ) (h1 : 1 ≤ count) (h5 : count ≤ 5)
    (direction : Direction) :
    (direction = .horizontal →
      calculateSocketGroupDimensions count direction =
        { width := (count : ℚ) * 7 + ((count : ℚ) - 1) * (2/10), height := 7 }) ∧
    (direction = .vertical →
      calculateSocketGroupDimensions count direction =
        { width := 7, height := (count : ℚ) * 7 + ((count : ℚ) - 1) * (2/10) }) := by
  cases direction
  · refine ⟨fun _ => ?_, fun hd => Direction.noConfusion hd⟩
    norm_num [calculateSocketGroupDimensions, SOCKET_SIZE, SOCKET_GAP]
  · refine ⟨fun hd => Direction.noConfusion hd, fun _ => ?_⟩
    norm_num [calculateSocketGroupDimensions, SOCKET_SIZE, SOCKET_GAP]

/-- Witness for C6 at count = 3, horizontal: width 21.4 cm, height 7 cm. -/
theorem socket_group_dimensions_spec_witness :
    (1 ≤ 3 ∧ 3 ≤ 5) ∧
      calculateSocketGroupDimensions 3 .horizontal =
        { width := ((3:ℕ) : ℚ) * 7 + (((3:ℕ) : ℚ) - 1) * (2/10), height := 7 } :=
  ⟨⟨by norm_num, by norm_num⟩,
    (socket_group_dimensions_spec 3 (by norm_num) (by norm_num) .horizontal).1 rfl⟩

/-- Claim C3: on a 100×60 plate, group A (count 3, horizontal) at anchor
(10, 10) is accepted with bounding box left 6.5, right 27.9, bottom 6.5,
top 13.5; with A committed, group B (count 1, vertical) at anchor (14, 10)
has box left 10.5, right 17.5, bottom 6.5, top 13.5 overlapping A's box and
is rejected with an inter-group-clearance error reporting distance 0 < 4. -/
theorem validate_end_to_end_scenario :
    validateSocketPosition
        { id := "A", plateId := "p1", count := 3, direction := .horizontal,
          positionX := 10, positionY := 10 }
        10 10 { id := "p1", width := 100, height := 60 } [] =
      { valid := true, error := none, positionX := 10, positionY := 10 }
    ∧ socketGroupBox
        { id := "A", plateId := "p1", count := 3, direction := .horizontal,
          positionX := 10, positionY := 10 } 10 10 =
      { left := 13/2, right := 279/10, bottom := 13/2, top := 27/2 }
    ∧ socketGroupBox
        { id := "B", plateId := "p1", count := 1, direction := .vertical,
          positionX := 14, positionY := 10 } 14 10 =
      { left := 21/2, right := 35/2, bottom := 13/2, top := 27/2 }
    ∧ validateSocketPosition
        { id := "B", plateId := "p1", count := 1, direction := .vertical,
          positionX := 14, positionY := 10 }
        14 10 { id := "p1", width := 100, height := 60 }
        [{ id := "A", plateId := "p1", count := 3, direction := .horizontal,
           positionX := 10, positionY := 10 }] =
      { valid := false, error := some (.groupDistance 0),
        positionX := 14, positionY := 10 } := by
  refine ⟨?_, ?_, ?_, ?_⟩ <;>
    norm_num [validateSocketPosition, socketGroupBox, calculateSocketGroupDimensions,
      checkGroupDistances, groupDistanceSq, rectHDistance, rectVDistance,
      SOCKET_SIZE, SOCKET_GAP, MIN_EDGE_DISTANCE, MIN_GROUP_DISTANCE, ANCHOR_OFFSET_CM]
  simp

/-- Claim C1: on a plate of width 100 with a count-1 group (any direction),
the candidate anchor `positionX = 6.4` is rejected with a left-edge violation
(whose diagnostic carries the minimum allowed anchor X, 6.5), and
`positionX = 6.5` is accepted whenever `positionY` satisfies the bottom/top
clearances and every sibling on the plate keeps the 4 cm clearance:
the `boxLeft ≥ 3` boundary is inclusive and the minimum valid anchor X is 6.5. -/
theorem validate_left_edge_boundary (sg : SocketGroup) (y : ℚ) (plate : Plate)
    (others : List SocketGroup)
    (hw : plate.width = 100) (hc : sg.count = 1)
    (hb : MIN_EDGE_DISTANCE ≤ y - ANCHOR_OFFSET_CM)
    (ht : y - ANCHOR_OFFSET_CM + 7 ≤ plate.height - MIN_EDGE_DISTANCE)
    (hg : ∀ o ∈ others, o.id ≠ sg.id → o.plateId = sg.plateId →
      ¬ (groupDistanceSq sg (13/2) y o < MIN_GROUP_DISTANCE * MIN_GROUP_DISTANCE)) :
    validateSocketPosition sg (64/10) y plate others =
      { valid := false, error := some (.leftEdge (13/2)),
        positionX := 64/10, positionY := y }
    ∧ validateSocketPosition sg (13/2) y plate others =
      { valid := true, error := none, positionX := 13/2, positionY := y } := by
  have hdim : calculateSocketGroupDimensions sg.count sg.direction =
      { width := 7, height := 7 } := by
    rw [hc]
    cases sg.direction <;>
      norm_num [calculateSocketGroupDimensions, SOCKET_SIZE, SOCKET_GAP]
  have hbox64 : socketGroupBox sg (64/10) y =
      { left := 29/10, right := 29/10 + 7, bottom := y - 7/2, top := y - 7/2 + 7 } := by
    simp only [socketGroupBox, hdim, ANCHOR_OFFSET_CM]
    norm_num
  have hbox65 : socketGroupBox sg (13/2) y =
      { left := 3, right := 10, bottom := y - 7/2, top := y - 7/2 + 7 } := by
    simp only [socketGroupBox, hdim, ANCHOR_OFFSET_CM]
    norm_num
  constructor
  · simp only [validateSocketPosition, hbox64]
    rw [if_pos (by norm_num [MIN_EDGE_DISTANCE])]
    norm_num [MIN_EDGE_DISTANCE, ANCHOR_OFFSET_CM]
  · have hnone : checkGroupDistances sg (13/2) y others = none :=
      (checkGroupDistances_eq_none_iff sg (13/2) y others).mpr hg
    rw [validateSocketPosition_of_edges_ok sg (13/2) y plate others
        (by rw [hbox65]; norm_num [MIN_EDGE_DISTANCE])
        (by rw [hbox65]; simpa [MIN_EDGE_DISTANCE, ANCHOR_OFFSET_CM] using hb)
        (by rw [hbox65, hw]; norm_num [MIN_EDGE_DISTANCE])
        (by rw [hbox65]; simpa [MIN_EDGE_DISTANCE, ANCHOR_OFFSET_CM] using ht),
      hnone]

/-- Witness for C1: plate 100×60, count-1 horizontal group, positionY 6.5,
no siblings — 6.4 rejected with the left-edge error, 6.5 accepted. -/
theorem validate_left_edge_boundary_witness :
    validateSocketPosition
        { id := "g", plateId := "p", count := 1, direction := .horizontal,
          positionX := 0, positionY := 0 }
        (64/10) (13/2) { id := "p", width := 100, height := 60 } [] =
      { valid := false, error := some (.leftEdge (13/2)),
        positionX := 64/10, positionY := 13/2 }
    ∧ validateSocketPosition
        { id := "g", plateId := "p", count := 1, direction := .horizontal,
          positionX := 0, positionY := 0 }
        (13/2) (13/2) { id := "p", width := 100, height := 60 } [] =
      { valid := true, error := none, positionX := 13/2, positionY := 13/2 } :=
  validate_left_edge_boundary
    { id := "g", plateId := "p", count := 1, direction := .horizontal,
      positionX := 0, positionY := 0 }
    (13/2) { id := "p", width := 100, height := 60 } []
    rfl rfl
    (by norm_num [MIN_EDGE_DISTANCE, ANCHOR_OFFSET_CM])
    (by norm_num [MIN_EDGE_DISTANCE, ANCHOR_OFFSET_CM])
    (by simp)

/-- Claim C2: with the four edge clearances satisfied, a candidate with some
same-plate sibling at rectangle distance exactly 3.9 cm (squared distance
`(39/10)²`) is rejected with an inter-group-clearance error, while a
candidate all of whose same-plate siblings are at distance at least 4 cm
(squared distance at least `4²`, covering exactly 4.0 cm) is accepted:
the `distance < 4` check makes the 4 cm boundary inclusive on the accepting
side. -/
theorem validate_group_clearance_boundary (sg : SocketGroup) (x y : ℚ)
    (plate : Plate) (others : List SocketGroup)
    (he1 : MIN_EDGE_DISTANCE ≤ (socketGroupBox sg x y).left)
    (he2 : MIN_EDGE_DISTANCE ≤ (socketGroupBox sg x y).bottom)
    (he3 : (socketGroupBox sg x y).right ≤ plate.width - MIN_EDGE_DISTANCE)
    (he4 : (socketGroupBox sg x y).top ≤ plate.height - MIN_EDGE_DISTANCE) :
    ((∃ o ∈ others, o.id ≠ sg.id ∧ o.plateId = sg.plateId ∧
        groupDistanceSq sg x y o = (39/10) * (39/10)) →
      (validateSocketPosition sg x y plate others).valid = false ∧
        ∃ q, (validateSocketPosition sg x y plate others).error =
          some (.groupDistance q))
    ∧ ((∀ o ∈ others, o.id ≠ sg.id → o.plateId = sg.plateId →
        MIN_GROUP_DISTANCE * MIN_GROUP_DISTANCE ≤ groupDistanceSq sg x y o) →
      (validateSocketPosition sg x y plate others).valid = true) := by
  have hred := validateSocketPosition_of_edges_ok sg x y plate others
    (not_lt.mpr he1) (not_lt.mpr he2) (not_lt.mpr he3) (not_lt.mpr he4)
  constructor
  · rintro ⟨o, ho, hid, hpl, hd⟩
    rcases hck : checkGroupDistances sg x y others with _ | e
    · exfalso
      have := (checkGroupDistances_eq_none_iff sg x y others).mp hck o ho hid hpl
      rw [hd] at this
      exact this (by norm_num [MIN_GROUP_DISTANCE])
    · rcases checkGroupDistances_some_shape sg x y others e hck with ⟨q, rfl, _⟩
      rw [hred, hck]
      exact ⟨rfl, q, rfl⟩
  · intro hall
    have hnone : checkGroupDistances sg x y others = none :=
      (checkGroupDistances_eq_none_iff sg x y others).mpr
        (fun o ho hid hpl => not_lt.mpr (hall o ho hid hpl))
    rw [hred, hnone]

/-- Witness for C2: plate 100×60, candidate count-1 group at (17.4, 6.5) is
3.9 cm from a committed count-1 group at (6.5, 6.5) and rejected; the same
candidate moved to x = 17.5 is exactly 4.0 cm away and accepted. -/
theorem validate_group_clearance_boundary_witness :
    (validateSocketPosition
        { id := "g", plateId := "p", count := 1, direction := .horizontal,
          positionX := 0, positionY := 0 }
        (174/10) (13/2) { id := "p", width := 100, height := 60 }
        [{ id := "other", plateId := "p", count := 1, direction := .horizontal,
           positionX := 13/2, positionY := 13/2 }]).valid = false
    ∧ (validateSocketPosition
        { id := "g", plateId := "p", count := 1, direction := .horizontal,
          positionX := 0, positionY := 0 }
        (175/10) (13/2) { id := "p", width := 100, height := 60 }
        [{ id := "other", plateId := "p", count := 1, direction := .horizontal,
           positionX := 13/2, positionY := 13/2 }]).valid = true := by
  refine ⟨?_, ?_⟩
  · exact ((validate_group_clearance_boundary
      { id := "g", plateId := "p", count := 1, direction := .horizontal,
        positionX := 0, positionY := 0 }
      (174/10) (13/2) { id := "p", width := 100, height := 60 }
      [{ id := "other", plateId := "p", count := 1, direction := .horizontal,
         positionX := 13/2, positionY := 13/2 }]
      (by norm_num [socketGroupBox, calculateSocketGroupDimensions,
        SOCKET_SIZE, SOCKET_GAP, MIN_EDGE_DISTANCE, ANCHOR_OFFSET_CM])
      (by norm_num [socketGroupBox, calculateSocketGroupDimensions,
        SOCKET_SIZE, SOCKET_GAP, MIN_EDGE_DISTANCE, ANCHOR_OFFSET_CM])
      (by norm_num [socketGroupBox, calculateSocketGroupDimensions,
        SOCKET_SIZE, SOCKET_GAP, MIN_EDGE_DISTANCE, ANCHOR_OFFSET_CM])
      (by norm_num [socketGroupBox, calculateSocketGroupDimensions,
        SOCKET_SIZE, SOCKET_GAP, MIN_EDGE_DISTANCE, ANCHOR_OFFSET_CM])).1
      ⟨_, List.mem_singleton_self _, by simp, rfl,
        by norm_num [groupDistanceSq, socketGroupBox, calculateSocketGroupDimensions,
          rectHDistance, rectVDistance, SOCKET_SIZE, SOCKET_GAP, ANCHOR_OFFSET_CM]⟩).1
  · exact (validate_group_clearance_boundary
      { id := "g", plateId := "p", count := 1, direction := .horizontal,
        positionX := 0, positionY := 0 }
      (175/10) (13/2) { id := "p", width := 100, height := 60 }
      [{ id := "other", plateId := "p", count := 1, direction := .horizontal,
         positionX := 13/2, positionY := 13/2 }]
      (by norm_num [socketGroupBox, calculateSocketGroupDimensions,
        SOCKET_SIZE, SOCKET_GAP, MIN_EDGE_DISTANCE, ANCHOR_OFFSET_CM])
      (by norm_num [socketGroupBox, calculateSocketGroupDimensions,
        SOCKET_SIZE, SOCKET_GAP, MIN_EDGE_DISTANCE, ANCHOR_OFFSET_CM])
      (by norm_num [socketGroupBox, calculateSocketGroupDimensions,
        SOCKET_SIZE, SOCKET_GAP, MIN_EDGE_DISTANCE, ANCHOR_OFFSET_CM])
      (by norm_num [socketGroupBox, calculateSocketGroupDimensions,
        SOCKET_SIZE, SOCKET_GAP, MIN_EDGE_DISTANCE, ANCHOR_OFFSET_CM])).2
      (by
        intro o ho hid hpl
        rcases List.mem_singleton.mp ho with rfl
        norm_num [groupDistanceSq, socketGroupBox, calculateSocketGroupDimensions,
          rectHDistance, rectVDistance, SOCKET_SIZE, SOCKET_GAP,
          MIN_GROUP_DISTANCE, ANCHOR_OFFSET_CM])

/-- Claim C4: two-run noninterference across plates — two sibling lists that
agree on the groups whose `plateId` equals the validated group's `plateId`
(and differ arbitrarily in groups on other plates, whatever their
coordinates) give identical validation results. -/
theorem validate_plate_noninterference (sg : SocketGroup) (x y : ℚ)
    (plate : Plate) (l1 l2 : List SocketGroup)
    (h : l1.filter (fun g => g.plateId == sg.plateId) =
         l2.filter (fun g => g.plateId == sg.plateId)) :
    validateSocketPosition sg x y plate l1 = validateSocketPosition sg x y plate l2 := by
  have hc : checkGroupDistances sg x y l1 = checkGroupDistances sg x y l2 := by
    rw [← checkGroupDistances_filter_same_plate sg x y l1, h,
      checkGroupDistances_filter_same_plate]
  simp only [validateSocketPosition, hc]

/-- Witness for C4: a group on another plate whose coordinates coincide with
the candidate's does not change the result — validating against it equals
validating against the empty sibling list. -/
theorem validate_plate_noninterference_witness :
    validateSocketPosition
        { id := "g", plateId := "p", count := 1, direction := .horizontal,
          positionX := 0, positionY := 0 }
        (13/2) (13/2) { id := "p", width := 100, height := 60 }
        [{ id := "elsewhere", plateId := "q", count := 1, direction := .horizontal,
           positionX := 13/2, positionY := 13/2 }] =
      validateSocketPosition
        { id := "g", plateId := "p", count := 1, direction := .horizontal,
          positionX := 0, positionY := 0 }
        (13/2) (13/2) { id := "p", width := 100, height := 60 } [] :=
  validate_plate_noninterference
    { id := "g", plateId := "p", count := 1, direction := .horizontal,
      positionX := 0, positionY := 0 }
    (13/2) (13/2) { id := "p", width := 100, height := 60 }
    [{ id := "elsewhere", plateId := "q", count := 1, direction := .horizontal,
       positionX := 13/2, positionY := 13/2 }] []
    (by simp)

/-- Claim C10: soundness of acceptance — whenever `validateSocketPosition`
returns `valid = true`, the candidate's bounding box satisfies all five
constraints at once (left/bottom at least 3 cm in, right/top at least 3 cm
short of the far edges, and Euclidean rectangle distance at least 4 cm to
every other group with the same `plateId` and a different id), and the
returned coordinates equal the inputs. -/
theorem validate_accept_sound (sg : SocketGroup) (x y : ℚ) (plate : Plate)
    (allGroups : List SocketGroup)
    (h : (validateSocketPosition sg x y plate allGroups).valid = true) :
    MIN_EDGE_DISTANCE ≤ (socketGroupBox sg x y).left ∧
    MIN_EDGE_DISTANCE ≤ (socketGroupBox sg x y).bottom ∧
    (socketGroupBox sg x y).right ≤ plate.width - MIN_EDGE_DISTANCE ∧
    (socketGroupBox sg x y).top ≤ plate.height - MIN_EDGE_DISTANCE ∧
    (∀ o ∈ allGroups, o.id ≠ sg.id → o.plateId = sg.plateId →
      (4:ℝ) ≤ Real.sqrt ((groupDistanceSq sg x y o : ℝ))) ∧
    (validateSocketPosition sg x y plate allGroups).positionX = x ∧
    (validateSocketPosition sg x y plate allGroups).positionY = y := by
  have hecho := validateSocketPosition_echo sg x y plate allGroups
  simp only [validateSocketPosition] at h
  split_ifs at h with h1 h2 h3 h4
  rcases hck : checkGroupDistances sg x y allGroups with _ | e
  · refine ⟨not_lt.mp h1, not_lt.mp h2, not_lt.mp h3, not_lt.mp h4, ?_,
      hecho.1, hecho.2⟩
    intro o ho hid hpl
    exact four_le_sqrt_groupDistanceSq sg x y o (not_lt.mp
      ((checkGroupDistances_eq_none_iff sg x y allGroups).mp hck o ho hid hpl))
  · rw [hck] at h
    exact absurd h (by simp)

/-- Witness for C10: the accepted count-1 placement at (6.5, 6.5) on a
100×60 plate with no siblings satisfies every constraint. -/
theorem validate_accept_sound_witness :
    MIN_EDGE_DISTANCE ≤ (socketGroupBox
      { id := "g", plateId := "p", count := 1, direction := .horizontal,
        positionX := 0, positionY := 0 } (13/2) (13/2)).left ∧
    MIN_EDGE_DISTANCE ≤ (socketGroupBox
      { id := "g", plateId := "p", count := 1, direction := .horizontal,
        positionX := 0, positionY := 0 } (13/2) (13/2)).bottom ∧
    (socketGroupBox
      { id := "g", plateId := "p", count := 1, direction := .horizontal,
        positionX := 0, positionY := 0 } (13/2) (13/2)).right ≤
      ({ id := "p", width := 100, height := 60 } : Plate).width - MIN_EDGE_DISTANCE ∧
    (socketGroupBox
      { id := "g", plateId := "p", count := 1, direction := .horizontal,
        positionX := 0, positionY := 0 } (13/2) (13/2)).top ≤
      ({ id := "p", width := 100, height := 60 } : Plate).height - MIN_EDGE_DISTANCE ∧
    (∀ o ∈ ([] : List SocketGroup), o.id ≠ "g" → o.plateId = "p" →
      (4:ℝ) ≤ Real.sqrt ((groupDistanceSq
        { id := "g", plateId := "p", count := 1, direction := .horizontal,
          positionX := 0, positionY := 0 } (13/2) (13/2) o : ℝ))) ∧
    (validateSocketPosition
      { id := "g", plateId := "p", count := 1, direction := .horizontal,
        positionX := 0, positionY := 0 }
      (13/2) (13/2) { id := "p", width := 100, height := 60 } []).positionX = 13/2 ∧
    (validateSocketPosition
      { id := "g", plateId := "p", count := 1, direction := .horizontal,
        positionX := 0, positionY := 0 }
      (13/2) (13/2) { id := "p", width := 100, height := 60 } []).positionY = 13/2 :=
  validate_accept_sound
    { id := "g", plateId := "p", count := 1, direction := .horizontal,
      positionX := 0, positionY := 0 }
    (13/2) (13/2) { id := "p", width := 100, height := 60 } []
    (by norm_num [validateSocketPosition, socketGroupBox,
      calculateSocketGroupDimensions, checkGroupDistances,
      SOCKET_SIZE, SOCKET_GAP, MIN_EDGE_DISTANCE, ANCHOR_OFFSET_CM])

/-- `getSocketGroupPosition` as defined in the plate-canvas renderer: CSS
`left`/`bottom` of the group's box, both translated from the anchor by
subtracting 3.5 cm before scaling (`plateScales[plate.id] || 0`). -/
def plateCanvasGetSocketGroupPosition (sg : SocketGroup) (plate : Plate)
    (plateScales : String → Option ℚ) : ℚ × ℚ :=
  let scale := (plateScales plate.id).getD 0
  let firstSocketLeft := sg.positionX - ANCHOR_OFFSET_CM
  let firstSocketBottom := sg.positionY - ANCHOR_OFFSET_CM
  (firstSocketLeft * scale, firstSocketBottom * scale)

/-- `getSocketGroupPosition` as defined in the page component, used for the
drag-offset capture in the mouse/touch-down handlers: its x subtracts the
3.5 cm anchor offset, but its y ADDS it (`positionY + ANCHOR_OFFSET_CM`). -/
def pageGetSocketGroupPosition (sg : SocketGroup) (plate : Plate)
    (plateScales : String → Option ℚ) : ℚ × ℚ :=
  let scale := (plateScales plate.id).getD 0
  let firstSocketLeft := sg.positionX - ANCHOR_OFFSET_CM
  let firstSocketBottom := sg.positionY + ANCHOR_OFFSET_CM
  (firstSocketLeft * scale, firstSocketBottom * scale)

/-- Drag-start offset captured by the mouse/touch-down handlers: the pointer
position minus the group's rendered position (`pageGetSocketGroupPosition`,
its y converted from bottom- to top-based pixels) and the plate's screen
offset. -/
def dragStartOffset (sg : SocketGroup) (plate : Plate)
    (plateScales : String → Option ℚ)
    (plateOffsetX plateOffsetY rectLeft rectTop clientX clientY : ℚ) : ℚ × ℚ :=
  let scale := (plateScales plate.id).getD 0
  let pos := pageGetSocketGroupPosition sg plate plateScales
  let plateHeightPx := plate.height * scale
  let posTopY := plateHeightPx - pos.2
  (clientX - rectLeft - pos.1 - plateOffsetX,
   clientY - rectTop - posTopY - plateOffsetY)

/-- Pointer-to-anchor mapping performed on every pointer move: subtract the
drag-start offset and the plate's screen offset, divide by the scale, flip
the vertical axis against the plate height, then shift by the 3.5 cm anchor
offset (`+` on x, `−` on y). -/
def dragMapCandidate (plate : Plate) (scale : ℚ) (offset : ℚ × ℚ)
    (plateOffsetX plateOffsetY rectLeft rectTop clientX clientY : ℚ) : ℚ × ℚ :=
  let mouseX := clientX - rectLeft - offset.1
  let mouseY := clientY - rectTop - offset.2
  let mousePlateX := (mouseX - plateOffsetX) / scale
  let mousePlateY := plate.height - (mouseY - plateOffsetY) / scale
  (mousePlateX + ANCHOR_OFFSET_CM, mousePlateY - ANCHOR_OFFSET_CM)

/-- The `+3.5` in `pageGetSocketGroupPosition` is consistent with the
mouse-move mapper: when the pointer has not moved since drag-start, the
mapped candidate is exactly the stored anchor position, on both axes. -/
lemma dragMapCandidate_roundtrip (sg : SocketGroup) (plate : Plate)
    (plateScales : String → Option ℚ)
    (plateOffsetX plateOffsetY rectLeft rectTop clientX clientY : ℚ)
    (hs : (plateScales plate.id).getD 0 ≠ 0) :
    dragMapCandidate plate ((plateScales plate.id).getD 0)
      (dragStartOffset sg plate plateScales
        plateOffsetX plateOffsetY rectLeft rectTop clientX clientY)
      plateOffsetX plateOffsetY rectLeft rectTop clientX clientY =
    (sg.positionX, sg.positionY) := by
  simp only [dragMapCandidate, dragStartOffset, pageGetSocketGroupPosition]
  refine Prod.ext ?_ ?_
  · field_simp
    ring
  · field_simp
    ring

/-- Claim C5 counterexample: the per-group position that the page component
computes for drag-offset capture does not use `positionY − 3.5`: at
`positionY = 10` and scale 1 its y is 13.5, not `(10 − 3.5) · 1 = 6.5`. -/
theorem drag_offset_bottom_translation_cex :
    (pageGetSocketGroupPosition
        { id := "g", plateId := "p", count := 1, direction := .horizontal,
          positionX := 10, positionY := 10 }
        { id := "p", width := 100, height := 60 }
        (fun _ => some 1)).2 ≠
      ((10 : ℚ) - ANCHOR_OFFSET_CM) * 1 := by
  norm_num [pageGetSocketGroupPosition, ANCHOR_OFFSET_CM]

/-- Claim C5 (amended): the validator's box construction and the renderer's
per-group position translate the anchor with `positionY − 3.5` (and
`positionX − 3.5`), but the page component's drag-offset-capture helper
computes its y from `positionY + 3.5`; the two signs cancel against the
mouse-move mapper (see `dragMapCandidate_roundtrip`). -/
theorem anchor_to_box_translation_amended (sg : SocketGroup) (x y : ℚ)
    (plate : Plate) (plateScales : String → Option ℚ) :
    (socketGroupBox sg x y).left = x - ANCHOR_OFFSET_CM ∧
    (socketGroupBox sg x y).bottom = y - ANCHOR_OFFSET_CM ∧
    plateCanvasGetSocketGroupPosition sg plate plateScales =
      ((sg.positionX - ANCHOR_OFFSET_CM) * (plateScales plate.id).getD 0,
       (sg.positionY - ANCHOR_OFFSET_CM) * (plateScales plate.id).getD 0) ∧
    pageGetSocketGroupPosition sg plate plateScales =
      ((sg.positionX - ANCHOR_OFFSET_CM) * (plateScales plate.id).getD 0,
       (sg.positionY + ANCHOR_OFFSET_CM) * (plateScales plate.id).getD 0) :=
  ⟨rfl, rfl, rfl, rfl⟩

/-- The slice of component state that `handleSocketMouseMove` reads and
writes: the committed socket-group collection and the current error message
(structured here, a German string in the source). -/
structure EngineState where
  socketGroups : List SocketGroup
  errorMessage : Option ValidationError
deriving DecidableEq, Repr

/-- Commit step of `handleSocketMouseMove`, taking the already-mapped
candidate anchor `(plateX, plateY)`: look up the dragged group and its plate,
validate the candidate against the whole collection, and update the group's
stored position only when the validation succeeds; on failure only the error
message changes. -/
def handleSocketMouseMove (st : EngineState) (dragSocketGroupId : String)
    (plates : List Plate) (plateX plateY : ℚ) : EngineState :=
  match st.socketGroups.find? (fun sg => sg.id == dragSocketGroupId) with
  | none => st
  | some socketGroup =>
    match plates.find? (fun p => p.id == socketGroup.plateId) with
    | none => st
    | some plate =>
      let validation :=
        validateSocketPosition socketGroup plateX plateY plate st.socketGroups
      if validation.valid then
        { socketGroups := st.socketGroups.map (fun sg =>
            if sg.id == socketGroup.id then
              { socketGroup with positionX := plateX, positionY := plateY }
            else sg)
          errorMessage := none }
      else
        { st with errorMessage := validation.error }

/-- Claim C7: atomicity of rejection during drag — when the mapped candidate
fails validation, the committed socket-group collection is unchanged (each
group keeps its last valid position); positions are only rewritten when
`validateSocketPosition` returns `valid = true`. -/
theorem drag_invalid_keeps_committed_positions (st : EngineState)
    (dragSocketGroupId : String) (plates : List Plate) (plateX plateY : ℚ)
    (sg : SocketGroup) (plate : Plate)
    (hf : st.socketGroups.find? (fun g => g.id == dragSocketGroupId) = some sg)
    (hp : plates.find? (fun p => p.id == sg.plateId) = some plate)
    (hv : (validateSocketPosition sg plateX plateY plate st.socketGroups).valid
      = false) :
    (handleSocketMouseMove st dragSocketGroupId plates plateX plateY).socketGroups
      = st.socketGroups := by
  simp only [handleSocketMouseMove, hf, hp]
  rw [if_neg (by simp [hv])]

/-- Witness for C7: dragging the lone group of a 100×60 plate to the invalid
anchor (0, 6.5) leaves the committed collection unchanged. -/
theorem drag_invalid_keeps_committed_positions_witness :
    (handleSocketMouseMove
        { socketGroups :=
            [{ id := "g", plateId := "p", count := 1, direction := .horizontal,
               positionX := 13/2, positionY := 13/2 }],
          errorMessage := none }
        "g" [{ id := "p", width := 100, height := 60 }] 0 (13/2)).socketGroups
      = [{ id := "g", plateId := "p", count := 1, direction := .horizontal,
           positionX := 13/2, positionY := 13/2 }] :=
  drag_invalid_keeps_committed_positions
    { socketGroups :=
        [{ id := "g", plateId := "p", count := 1, direction := .horizontal,
           positionX := 13/2, positionY := 13/2 }],
      errorMessage := none }
    "g" [{ id := "p", width := 100, height := 60 }] 0 (13/2)
    { id := "g", plateId := "p", count := 1, direction := .horizontal,
      positionX := 13/2, positionY := 13/2 }
    { id := "p", width := 100, height := 60 }
    (by simp)
    (by simp)
    (by norm_num [validateSocketPosition, socketGroupBox,
      calculateSocketGroupDimensions, SOCKET_SIZE, SOCKET_GAP,
      MIN_EDGE_DISTANCE, ANCHOR_OFFSET_CM])

/-- `Math.max(...xs)` over a list as used on the plate heights; the scaling
code only evaluates it on a non-empty list (the effect returns early when
`plates.length === 0`). -/
def mathMaxList : List ℚ → ℚ
  | [] => 0
  | x :: xs => xs.foldl max x

/-- The plate-scaling effect's scale computation: responsive padding
(20 below the 640 px breakpoint, else 80), fit the focused plate
(`min(availW/w, availH/h, 2)`) in single-plate mode — falling back to the
all-plates computation when the focused plate is not found — or fit all
plates side by side (`min(availW/Σw, availH/max h, 1)`) in multi-plate mode,
then clamp from below by the floor (0.3 mobile, 0.2 otherwise). -/
def computeFinalScale (canvasWidth canvasHeight : ℚ) (plates : List Plate)
    (selectedSocketGroup : Option SocketGroup) (selectedPlate : String) : ℚ :=
  let isSinglePlateMode := selectedSocketGroup.isSome || selectedPlate != ""
  let padding : ℚ := if canvasWidth < 640 then 20 else 80
  let maxCanvasWidth := canvasWidth - padding * 2
  let maxCanvasHeight := canvasHeight - padding * 2
  let fitted :=
    if isSinglePlateMode then
      match plates.find? (fun p =>
        match selectedSocketGroup with
        | some sg => p.id == sg.plateId
        | none => p.id == selectedPlate) with
      | some plateToScale =>
        min (min (maxCanvasWidth / plateToScale.width)
          (maxCanvasHeight / plateToScale.height)) 2
      | none =>
        let totalRealWidth := plates.foldl (fun sum plate => sum + plate.width) 0
        let maxPlateHeight := mathMaxList (plates.map Plate.height)
        min (min (maxCanvasWidth / totalRealWidth)
          (maxCanvasHeight / maxPlateHeight)) 1
    else
      let totalRealWidth := plates.foldl (fun sum plate => sum + plate.width) 0
      let maxPlateHeight := mathMaxList (plates.map Plate.height)
      min (min (maxCanvasWidth / totalRealWidth)
        (maxCanvasHeight / maxPlateHeight)) 1
  let minScale : ℚ := if canvasWidth < 640 then 3/10 else 1/5
  max minScale fitted

/-- The `scales` record built right after the scale computation:
`plates.forEach(plate => scales[plate.id] = finalScale)` — every displayed
plate id is mapped to the one final scale. -/
def plateScalesMap (canvasWidth canvasHeight : ℚ) (plates : List Plate)
    (selectedSocketGroup : Option SocketGroup) (selectedPlate : String)
    (plateId : String) : Option ℚ :=
  if plates.any (fun p => p.id == plateId) then
    some (computeFinalScale canvasWidth canvasHeight plates
      selectedSocketGroup selectedPlate)
  else none

/-- The final scale is clamped from below by the responsive floor. -/
lemma computeFinalScale_ge_floor (canvasWidth canvasHeight : ℚ)
    (plates : List Plate) (selectedSocketGroup : Option SocketGroup)
    (selectedPlate : String) :
    (if canvasWidth < 640 then (3/10 : ℚ) else 1/5) ≤
      computeFinalScale canvasWidth canvasHeight plates
        selectedSocketGroup selectedPlate := by
  simp only [computeFinalScale]
  exact le_max_left _ _

/-- The final scale never exceeds the mode's cap (2 with a focused plate,
1 otherwise; the single-plate fallback cap 1 is also below 2). -/
lemma computeFinalScale_le_cap (canvasWidth canvasHeight : ℚ)
    (plates : List Plate) (selectedSocketGroup : Option SocketGroup)
    (selectedPlate : String) :
    computeFinalScale canvasWidth canvasHeight plates
        selectedSocketGroup selectedPlate ≤
      (if (selectedSocketGroup.isSome || selectedPlate != "") then (2:ℚ) else 1) := by
  simp only [computeFinalScale]
  apply max_le
  · split_ifs <;> norm_num
  · by_cases hm : (selectedSocketGroup.isSome || selectedPlate != "") = true
    · rw [if_pos hm, if_pos hm]
      rcases hfind : plates.find? (fun p =>
          match selectedSocketGroup with
          | some sg => p.id == sg.plateId
          | none => p.id == selectedPlate) with _ | plateToScale <;>
        simp only [hfind]
      · exact le_trans (min_le_right _ _) (by norm_num)
      · exact min_le_right _ _
    · rw [if_neg hm, if_neg hm]
      exact min_le_right _ _

/-- The final scale is strictly positive (the floor is). -/
lemma computeFinalScale_pos (canvasWidth canvasHeight : ℚ)
    (plates : List Plate) (selectedSocketGroup : Option SocketGroup)
    (selectedPlate : String) :
    0 < computeFinalScale canvasWidth canvasHeight plates
      selectedSocketGroup selectedPlate :=
  lt_of_lt_of_le (by split_ifs <;> norm_num)
    (computeFinalScale_ge_floor canvasWidth canvasHeight plates
      selectedSocketGroup selectedPlate)

/-- Claim C8: for every non-empty plate list and viewport, the computed
scale never exceeds the mode-specific cap (2 with a focused plate, 1
otherwise) and never falls below the configured floor (0.3 when the
viewport is below the 640 px mobile breakpoint, 0.2 otherwise): the fitted
`min` is capped and then clamped from below by the floor. -/
theorem plate_scale_bounds (canvasWidth canvasHeight : ℚ) (plates : List Plate)
    (selectedSocketGroup : Option SocketGroup) (selectedPlate : String)
    (hne : plates ≠ []) (hcw : canvasWidth ≠ 0)
    (hw : ∀ p ∈ plates, 0 < p.width) (hh : ∀ p ∈ plates, 0 < p.height) :
    (if canvasWidth < 640 then (3/10 : ℚ) else 1/5) ≤
        computeFinalScale canvasWidth canvasHeight plates
          selectedSocketGroup selectedPlate ∧
      computeFinalScale canvasWidth canvasHeight plates
          selectedSocketGroup selectedPlate ≤
        (if (selectedSocketGroup.isSome || selectedPlate != "") then (2:ℚ) else 1) :=
  ⟨computeFinalScale_ge_floor canvasWidth canvasHeight plates
      selectedSocketGroup selectedPlate,
    computeFinalScale_le_cap canvasWidth canvasHeight plates
      selectedSocketGroup selectedPlate⟩

/-- Witness for C8: one 100×60 plate in a 1000×800 viewport with nothing
selected — the scale is between the desktop floor 0.2 and the
multi-plate cap 1. -/
theorem plate_scale_bounds_witness :
    (if (1000:ℚ) < 640 then (3/10 : ℚ) else 1/5) ≤
        computeFinalScale 1000 800 [{ id := "p", width := 100, height := 60 }]
          none "" ∧
      computeFinalScale 1000 800 [{ id := "p", width := 100, height := 60 }]
          none "" ≤
        (if ((none : Option SocketGroup).isSome || ("" : String) != "")
          then (2:ℚ) else 1) :=
  plate_scale_bounds 1000 800 [{ id := "p", width := 100, height := 60 }]
    none ""
    (by simp) (by norm_num)
    (by intro p hp; rcases List.mem_singleton.mp hp with rfl; norm_num)
    (by intro p hp; rcases List.mem_singleton.mp hp with rfl; norm_num)

/-- Claim C9: uniform scaling — the `scales` record maps every displayed
plate id to the one computed scale, that scale is positive, and hence the
rendered-width ratio of any two displayed plates equals their real-width
ratio (a 40 cm plate renders at exactly half the width of an 80 cm plate). -/
theorem plate_scale_uniform_ratio (canvasWidth canvasHeight : ℚ)
    (plates : List Plate) (selectedSocketGroup : Option SocketGroup)
    (selectedPlate : String) (p q : Plate)
    (hp : p ∈ plates) (hq : q ∈ plates) (hqw : q.width ≠ 0) :
    plateScalesMap canvasWidth canvasHeight plates selectedSocketGroup
        selectedPlate p.id =
      some (computeFinalScale canvasWidth canvasHeight plates
        selectedSocketGroup selectedPlate) ∧
    plateScalesMap canvasWidth canvasHeight plates selectedSocketGroup
        selectedPlate q.id =
      some (computeFinalScale canvasWidth canvasHeight plates
        selectedSocketGroup selectedPlate) ∧
    0 < computeFinalScale canvasWidth canvasHeight plates
      selectedSocketGroup selectedPlate ∧
    (p.width * computeFinalScale canvasWidth canvasHeight plates
        selectedSocketGroup selectedPlate) /
      (q.width * computeFinalScale canvasWidth canvasHeight plates
        selectedSocketGroup selectedPlate) =
      p.width / q.width := by
  have hs := computeFinalScale_pos canvasWidth canvasHeight plates
    selectedSocketGroup selectedPlate
  refine ⟨?_, ?_, hs, ?_⟩
  · simp only [plateScalesMap]
    rw [if_pos (List.any_eq_true.mpr ⟨p, hp, by simp⟩)]
  · simp only [plateScalesMap]
    rw [if_pos (List.any_eq_true.mpr ⟨q, hq, by simp⟩)]
  · rw [mul_div_mul_right _ _ (ne_of_gt hs)]

/-- Witness for C9: plates of widths 40 and 80 shown together in a
1000×800 viewport render at the exact width ratio 40/80 = 1/2. -/
theorem plate_scale_uniform_ratio_witness :
    plateScalesMap 1000 800
        [{ id := "a", width := 40, height := 60 },
         { id := "b", width := 80, height := 60 }] none "" "a" =
      some (computeFinalScale 1000 800
        [{ id := "a", width := 40, height := 60 },
         { id := "b", width := 80, height := 60 }] none "") ∧
    plateScalesMap 1000 800
        [{ id := "a", width := 40, height := 60 },
         { id := "b", width := 80, height := 60 }] none "" "b" =
      some (computeFinalScale 1000 800
        [{ id := "a", width := 40, height := 60 },
         { id := "b", width := 80, height := 60 }] none "") ∧
    0 < computeFinalScale 1000 800
      [{ id := "a", width := 40, height := 60 },
       { id := "b", width := 80, height := 60 }] none "" ∧
    ((40:ℚ) * computeFinalScale 1000 800
        [{ id := "a", width := 40, height := 60 },
         { id := "b", width := 80, height := 60 }] none "") /
      ((80:ℚ) * computeFinalScale 1000 800
        [{ id := "a", width := 40, height := 60 },
         { id := "b", width := 80, height := 60 }] none "") =
      (40:ℚ) / 80 :=
  plate_scale_uniform_ratio 1000 800
    [{ id := "a", width := 40, height := 60 },
     { id := "b", width := 80, height := 60 }] none ""
    { id := "a", width := 40, height := 60 }
    { id := "b", width := 80, height := 60 }
    (by simp) (by simp) (by norm_num)
